import Mathlib

/-!
Shallow embedding of the orchestration core of the reve-sdk image-generation
client (`src/index.ts` and `src/utils/helpers.ts`).

Modelling conventions:
* JavaScript `number | undefined` fields become `Option Int`; JS truthiness
  (`x && ...`, `x || default`) is modelled explicitly (`truthyNum`,
  `truthyStr`, `numDefault`, `strDefault`), since `0`, `""`, `undefined` are
  falsy.
* Thrown `ReveAIError`s become `Except ReveAIError _`.
* Every call to `Math.random()` is modelled as an explicit draw supplied by
  the environment: `Math.floor(Math.random() * K)` becomes a `Nat` draw that
  is `< K` by hypothesis where relevant.
* The network is modelled as an environment: per-poll-iteration node listings
  and asset-fetch outcomes (`PollEnv`), the generation-submit response shape
  (`SubmitResp`), and the prompt-enhancement response (`EnhanceResp`).
* The poller and the batch orchestrator are instrumented to also report how
  many poll iterations ran, how many inter-poll delays happened, which
  enhancement calls were issued (by their requested `num_variants`), and the
  `inference_inputs` payload each job submitted; this observable trace is
  what the temporal claims are stated over.  Wall-clock time (`delay`,
  `completedAt`) is not modelled beyond counting delays.
-/

namespace ReveSDK

/-- `ReveAIErrorType` from `src/types` (as used by the orchestration core). -/
inductive ReveAIErrorType where
  | AUTHENTICATION_ERROR
  | TIMEOUT_ERROR
  | REQUEST_ERROR
  | API_ERROR
  | GENERATION_ERROR
  | POLLING_ERROR
  | UNEXPECTED_RESPONSE
  | UNKNOWN_ERROR
  deriving DecidableEq, Repr

/-- A thrown `ReveAIError` (message plus error kind; the optional HTTP status
code is irrelevant to the claims and omitted). -/
structure ReveAIError where
  message : String
  errType : ReveAIErrorType
  deriving DecidableEq, Repr

/-- JS truthiness of a `number | undefined` value: `undefined` and `0` are
falsy. -/
def truthyNum : Option Int → Bool
  | none => false
  | some n => n != 0

/-- JS truthiness of a `string | undefined` value: `undefined` and `""` are
falsy. -/
def truthyStr : Option String → Bool
  | none => false
  | some s => s != ""

/-- JS `x || d` for a `number | undefined` value `x`. -/
def numDefault (o : Option Int) (d : Int) : Int :=
  match o with
  | none => d
  | some n => if n = 0 then d else n

/-- JS `x || d` for a `string | undefined` value `x`. -/
def strDefault (o : Option String) (d : String) : String :=
  match o with
  | none => d
  | some s => if s = "" then d else s

/-- The width/height test of `validateImageOptions` in `utils/helpers.ts`:
`width && (width < 384 || width > 1024 || width % 8 !== 0)`. -/
def dimInvalid : Option Int → Bool
  | none => false
  | some n => n != 0 && (n < 384 || 1024 < n || n % 8 != 0)

/-- The batch-size test of `validateImageOptions`:
`batchSize !== undefined && (batchSize < 1 || batchSize > 8)`. -/
def batchInvalid : Option Int → Bool
  | none => false
  | some n => n < 1 || 8 < n

/-- `validateImageOptions(width, height, batchSize)` from `utils/helpers.ts`:
throws a `GENERATION_ERROR` on the first violated bound, otherwise returns. -/
def validateImageOptions (width height batchSize : Option Int) :
    Except ReveAIError Unit :=
  if dimInvalid width then
    .error { message := "Width must be between 384 and 1024 and be divisible by 8"
             errType := .GENERATION_ERROR }
  else if dimInvalid height then
    .error { message := "Height must be between 384 and 1024 and be divisible by 8"
             errType := .GENERATION_ERROR }
  else if batchInvalid batchSize then
    .error { message := "Batch size must be between 1 and 8"
             errType := .GENERATION_ERROR }
  else
    .ok ()

/-- One entry of the `/api/misc/model_infer_sync` response list.
`expanded_prompts := none` models `outputs` missing or
`outputs.expanded_prompts` not being an array. -/
structure EnhanceEntry where
  status : String
  expanded_prompts : Option (List String)
  deriving DecidableEq, Repr

/-- Outcome of the enhancement request as seen by `enhancePrompt`:
the request threw (network error, or `getProjectId` failed), the response
body was not an array, or it was an array of entries. -/
inductive EnhanceResp where
  | failure
  | nonList
  | entries (l : List EnhanceEntry)
  deriving DecidableEq, Repr

/-- `ReveAI.enhancePrompt` (src/index.ts): reads the last entry of the
response list; on a `"success"` entry with an `expanded_prompts` array it
returns that array, in every other case (including a thrown request) it
falls back to `[prompt]`.  Note the code does not require the array to be
non-empty. -/
def enhancePrompt (prompt : String) (resp : EnhanceResp) : List String :=
  match resp with
  | .failure => [prompt]
  | .nonList => [prompt]
  | .entries l =>
    match l.getLast? with
    | none => [prompt]
    | some last =>
      if last.status = "success" then
        match last.expanded_prompts with
        | some ps => ps
        | none => [prompt]
      else [prompt]

/-- The per-job `seed` option built by `generateImage`:
`options.seed === undefined ? -1 : options.seed + Math.floor(Math.random() * 1000)`,
with the jitter draw made explicit. -/
def jobSeedArg (base : Option Int) (jitter : Nat) : Int :=
  match base with
  | none => -1
  | some s => s + jitter

/-- The seed put into the generation payload by `generateSingleImage`:
`seed === -1 ? Math.floor(Math.random() * 10000000) : seed`, with the random
draw made explicit. -/
def resolveSeed (s : Int) (randDraw : Nat) : Int :=
  if s = -1 then (randDraw : Int) else s

/-- End-to-end seed submitted for one job of a batch: `generateImage`'s
per-job seed option fed through `generateSingleImage`'s resolution. -/
def submittedSeed (base : Option Int) (jitter randDraw : Nat) : Int :=
  resolveSeed (jobSeedArg base jitter) randDraw

/-- The `data` part of a node-listing entry, as read by
`pollGenerationStatus`: `output`, `error`, and `inference_inputs?.seed`. -/
structure NodeData where
  output : Option String
  error : Option String
  seed : Option Int
  deriving DecidableEq, Repr

/-- One entry of the `GET /api/project/{id}/node` response list. -/
structure NodeEntry where
  nodeId : String
  data : Option NodeData
  deriving DecidableEq, Repr

/-- Service behaviour seen by one polling loop: for each poll iteration `n`,
the node-listing response (`.error e` models a request failure already
normalised by `handleAxiosError`; `.ok none` models a response without a
`list` array) and the asset-fetch outcome (`none` models a thrown fetch,
`some (b64, contentType)` a success). -/
structure PollEnv where
  listings : Nat → Except ReveAIError (Option (List NodeEntry))
  fetches : Nat → Option (String × Option String)

/-- `ourGeneration.data.inference_inputs?.seed || -1`: a missing or falsy
(zero) echoed seed is reported as `-1`. -/
def reportedSeed (d : NodeData) : Int :=
  match d.seed with
  | none => -1
  | some s => if s = 0 then -1 else s

/-- `data:{mimeType};base64,{base64Image}` with
`mimeType = imageResponse.headers['content-type'] || 'image/webp'`. -/
def dataUrl (mime : Option String) (b64 : String) : String :=
  "data:" ++ strDefault mime "image/webp" ++ ";base64," ++ b64

/-- What `pollGenerationStatus` resolves with. -/
structure PollResult where
  imageUrls : List String
  seed : Int
  deriving DecidableEq, Repr

/-- Instrumented outcome of a polling loop: the result, how many poll
iterations (node-listing requests) ran, and how many inter-poll delays
happened. -/
structure PollTrace where
  result : Except ReveAIError PollResult
  polls : Nat
  delays : Nat
  deriving Repr

/-- The `while (attempts < maxPollingAttempts)` loop of
`pollGenerationStatus`, with `attempts` the current counter and the second
argument the remaining iterations (`maxPollingAttempts - attempts`).
Branches, in source order: no `list` array / id not found / no `data` →
wait and retry; truthy `data.output` → fetch the asset, succeeding with the
data URI and the echoed seed, or on fetch failure wait and retry; otherwise
truthy `data.error` → fail immediately with a generation error; otherwise
still processing → wait and retry.  A failed listing request aborts the
loop with that error. -/
def pollAux (genId : String) (env : PollEnv) : Nat → Nat → PollTrace
  | attempts, 0 =>
    { result := .error { message := "Generation timed out after " ++ toString attempts
                                      ++ " polling attempts"
                         errType := .POLLING_ERROR }
      polls := 0
      delays := 0 }
  | attempts, r + 1 =>
    let cont : PollTrace :=
      let t := pollAux genId env (attempts + 1) r
      { result := t.result, polls := t.polls + 1, delays := t.delays + 1 }
    match env.listings attempts with
    | .error e => { result := .error e, polls := 1, delays := 0 }
    | .ok none => cont
    | .ok (some l) =>
      match l.find? (fun e => e.nodeId == genId) with
      | none => cont
      | some entry =>
        match entry.data with
        | none => cont
        | some d =>
          if truthyStr d.output then
            match env.fetches attempts with
            | some (b64, mime) =>
              { result := .ok { imageUrls := [dataUrl mime b64], seed := reportedSeed d }
                polls := 1
                delays := 0 }
            | none => cont
          else if truthyStr d.error then
            { result := .error { message := "Generation failed: " ++ d.error.getD ""
                                 errType := .GENERATION_ERROR }
              polls := 1
              delays := 0 }
          else cont

/-- `ReveAI.pollGenerationStatus` for a given `maxPollingAttempts`. -/
def pollGenerationStatus (maxAttempts : Nat) (genId : String) (env : PollEnv) :
    PollTrace :=
  pollAux genId env 0 maxAttempts

/-- Shape of the `POST /api/project/{id}/generation` response:
the nested `{create:{node:{id}}}` shape, the flat `{generation_id}` shape, or
anything else. -/
inductive SubmitResp where
  | createNode (id : String)
  | flat (id : String)
  | other
  deriving DecidableEq, Repr

/-- The tolerant job-id extraction of `generateSingleImage`: each shape's id
must be truthy (non-empty), otherwise the response is unusable. -/
def parseSubmitResp : SubmitResp → Option String
  | .createNode id => if id = "" then none else some id
  | .flat id => if id = "" then none else some id
  | .other => none

/-- The `data.inference_inputs` object of the generation payload (the part of
the payload the claims quantify over). -/
structure InferenceInputs where
  caption : String
  height : Int
  negative_caption : String
  seed : Int
  width : Int
  deriving DecidableEq, Repr

/-- What `generateSingleImage` resolves with. -/
structure SingleResult where
  imageUrl : String
  seed : Int
  enhancedPrompt : Option String
  deriving DecidableEq, Repr

/-- Instrumented outcome of one job pipeline: the `inference_inputs` payload
it built and submitted (`none` when validation failed before building it),
the enhancement calls it issued (by requested variant count, in order), and
its result. -/
structure SingleRun where
  payload : Option InferenceInputs
  enhanceRequests : List Nat
  result : Except ReveAIError SingleResult
  deriving Repr

/-- `GenerateImageOptions` from `src/types` (fields used by the core). -/
structure GenerateImageOptions where
  prompt : String
  negativePrompt : Option String := none
  width : Option Int := none
  height : Option Int := none
  batchSize : Option Int := none
  seed : Option Int := none
  model : Option String := none
  enhancePrompt : Option Bool := none
  deriving DecidableEq, Repr

/-- Environment of one job pipeline: the jitter draw used by `generateImage`
to build the per-job seed option, the random-seed draw of
`generateSingleImage`, the response to an inline (per-job) enhancement call
if one is made, the submit response, and the polling environment. -/
structure JobEnv where
  jitterDraw : Nat
  randDraw : Nat
  enhResp : EnhanceResp
  submit : SubmitResp
  poll : PollEnv

/-- `ReveAI.generateSingleImage`: validate (with batch size fixed to 1),
resolve defaults via JS truthiness, pick the caption (a truthy pre-enhanced
prompt wins; else an inline enhancement call when enhancement is enabled;
else the original prompt), build the payload with the resolved seed, submit,
extract the job id from either response shape, poll, and package the result.
The `aspectRatio`/`instruction`/`unexpandedPrompt` client metadata and the
generated UUID node id are not observable through any claim and are
omitted. -/
def generateSingleImage (maxAttempts : Nat) (options : GenerateImageOptions)
    (enhancedPrompt : Option String) (env : JobEnv) : SingleRun :=
  match validateImageOptions options.width options.height (some 1) with
  | .error e => { payload := none, enhanceRequests := [], result := .error e }
  | .ok _ =>
    let prompt := options.prompt
    let negativePrompt := strDefault options.negativePrompt ""
    let width := numDefault options.width 1024
    let height := numDefault options.height 1024
    let seed := options.seed.getD (-1)
    let shouldEnhancePrompt := options.enhancePrompt.getD true
    let finalAndCalls : String × List Nat :=
      if truthyStr enhancedPrompt && shouldEnhancePrompt then
        (enhancedPrompt.getD "", [])
      else if shouldEnhancePrompt then
        let eps := enhancePrompt prompt env.enhResp
        (eps.headD prompt, [1])
      else
        (prompt, [])
    let finalPrompt := finalAndCalls.1
    let calls := finalAndCalls.2
    let payload : InferenceInputs :=
      { caption := finalPrompt
        height := height
        negative_caption := negativePrompt
        seed := resolveSeed seed env.randDraw
        width := width }
    match parseSubmitResp env.submit with
    | none =>
      { payload := some payload
        enhanceRequests := calls
        result := .error { message := "Failed to get generation ID from response"
                           errType := .UNEXPECTED_RESPONSE } }
    | some genId =>
      let t := pollGenerationStatus maxAttempts genId env.poll
      match t.result with
      | .error e =>
        { payload := some payload, enhanceRequests := calls, result := .error e }
      | .ok pr =>
        { payload := some payload
          enhanceRequests := calls
          result := .ok { imageUrl := pr.imageUrls.headD ""
                          seed := pr.seed
                          enhancedPrompt :=
                            if shouldEnhancePrompt && finalPrompt != prompt then
                              some finalPrompt
                            else none } }

/-- `GenerateImageResult` from `src/types` (the `completedAt` timestamp is
real time and not modelled). -/
structure GenerateImageResult where
  imageUrls : List String
  seed : Int
  prompt : String
  enhancedPrompt : Option String
  enhancedPrompts : Option (List String)
  negativePrompt : Option String
  deriving DecidableEq, Repr

/-- Instrumented outcome of `generateImage`: per-job submitted payloads in
dispatch order, all enhancement calls issued (batch-level first, then
per-job), and the result. -/
structure BatchRun where
  payloads : List (Option InferenceInputs)
  enhanceRequests : List Nat
  result : Except ReveAIError GenerateImageResult
  deriving Repr

/-- `Promise.all` over already-determined job outcomes: the first (by
dispatch index) failing job's error, or the list of successes in dispatch
order. -/
def collect : List (Except ReveAIError SingleResult) →
    Except ReveAIError (List SingleResult)
  | [] => .ok []
  | x :: xs =>
    match x with
    | .error e => .error e
    | .ok a =>
      match collect xs with
      | .error e => .error e
      | .ok rest => .ok (a :: rest)

/-- `results[0].seed`.  The empty case is unreachable after validation
(batch size resolves to at least 1). -/
def headSeed : List SingleResult → Int
  | [] => 0
  | r :: _ => r.seed

/-- The enhanced-prompt variant `generateImage` assigns to job `i`:
the batch-level enhancement runs when enhancement is enabled and the
resolved batch size exceeds 1, and job `i` receives
`enhancedPrompts[i % enhancedPrompts.length]` when that list is
non-empty. -/
def assignedVariant (options : GenerateImageOptions) (benh : EnhanceResp)
    (i : Nat) : Option String :=
  let batchSize := numDefault options.batchSize 1
  let shouldEnhance := options.enhancePrompt.getD true
  let enhancedPrompts :=
    if shouldEnhance && 1 < batchSize then enhancePrompt options.prompt benh else []
  if shouldEnhance && 0 < enhancedPrompts.length then
    some (enhancedPrompts.getD (i % enhancedPrompts.length) options.prompt)
  else none

/-- The batch-level enhancement call issued by `generateImage` (requested
variant count `batchSize`), when enhancement is enabled and the batch has
more than one job. -/
def batchEnhanceRequests (options : GenerateImageOptions) : List Nat :=
  let batchSize := numDefault options.batchSize 1
  if options.enhancePrompt.getD true && 1 < batchSize then [batchSize.toNat] else []

/-- Job `i` of the batch: `generateSingleImage` on the request with the
per-job seed option (`jobSeedArg`) and the assigned prompt variant. -/
def jobRun (maxAttempts : Nat) (options : GenerateImageOptions)
    (benh : EnhanceResp) (jenvs : Nat → JobEnv) (i : Nat) : SingleRun :=
  generateSingleImage maxAttempts
    { options with seed := some (jobSeedArg options.seed (jenvs i).jitterDraw) }
    (assignedVariant options benh i)
    (jenvs i)

/-- The `batchSize` job pipelines launched by `generateImage`, in dispatch
order (`Array.from({length: batchSize}, ...)`). -/
def batchJobs (maxAttempts : Nat) (options : GenerateImageOptions)
    (benh : EnhanceResp) (jenvs : Nat → JobEnv) : List SingleRun :=
  (List.range ((numDefault options.batchSize 1).toNat)).map
    (jobRun maxAttempts options benh jenvs)

/-- Body of `generateImage` after validation has passed: fan out
`batchSize` job pipelines, await all of them, and reduce. -/
def generateImageBody (maxAttempts : Nat) (options : GenerateImageOptions)
    (benh : EnhanceResp) (jenvs : Nat → JobEnv) : BatchRun :=
  match collect ((batchJobs maxAttempts options benh jenvs).map (fun r => r.result)) with
  | .error e =>
    { payloads := (batchJobs maxAttempts options benh jenvs).map (fun r => r.payload)
      enhanceRequests := batchEnhanceRequests options
        ++ ((batchJobs maxAttempts options benh jenvs).map (fun r => r.enhanceRequests)).flatten
      result := .error e }
  | .ok results =>
    let shouldEnhance := options.enhancePrompt.getD true
    let negativePrompt := strDefault options.negativePrompt ""
    let used := results.filterMap (fun r => r.enhancedPrompt)
    { payloads := (batchJobs maxAttempts options benh jenvs).map (fun r => r.payload)
      enhanceRequests := batchEnhanceRequests options
        ++ ((batchJobs maxAttempts options benh jenvs).map (fun r => r.enhanceRequests)).flatten
      result := .ok
        { imageUrls := results.map (fun r => r.imageUrl)
          seed := headSeed results
          prompt := options.prompt
          enhancedPrompt :=
            if shouldEnhance && 0 < used.length then some (used.headD "") else none
          enhancedPrompts :=
            if shouldEnhance && 0 < used.length && 1 < used.length then some used
            else none
          negativePrompt :=
            if negativePrompt = "" then none else some negativePrompt } }

/-- `ReveAI.generateImage`: validate first (a violation produces the
validation error with no payload built and no enhancement call), then run
the batch body.  The `catch` clause re-throws `ReveAIError`s unchanged
(`handleAxiosError` is the identity on them), which is the only case that
arises in this model. -/
def generateImage (maxAttempts : Nat) (options : GenerateImageOptions)
    (benh : EnhanceResp) (jenvs : Nat → JobEnv) : BatchRun :=
  match validateImageOptions options.width options.height options.batchSize with
  | .error e => { payloads := [], enhanceRequests := [], result := .error e }
  | .ok _ => generateImageBody maxAttempts options benh jenvs

/-- A listing response that does not advance the job: no request failure and
either no `list` array or an array without the job id. -/
def listingSilent (genId : String) :
    Except ReveAIError (Option (List NodeEntry)) → Bool
  | .error _ => false
  | .ok none => true
  | .ok (some l) => l.find? (fun e => e.nodeId == genId) == none

/-- Concrete node data for a completed job (output present, seed echoed
as 3). -/
def outData : NodeData := { output := some "img", error := none, seed := some 3 }

/-- Concrete listing entry for job `"g"` carrying `outData`. -/
def outEntry : NodeEntry := { nodeId := "g", data := some outData }

/-- Polling environment where every listing shows job `"g"` completed and
every asset fetch succeeds. -/
def envOkPoll : PollEnv :=
  { listings := fun _ => .ok (some [outEntry])
    fetches := fun _ => some ("QQ==", some "image/webp") }

/-- Polling environment where every listing shows job `"g"` completed but
every asset fetch fails. -/
def envFetchFail : PollEnv :=
  { listings := fun _ => .ok (some [outEntry])
    fetches := fun _ => none }

/-- Polling environment whose listings never contain any job. -/
def envSilent : PollEnv :=
  { listings := fun _ => .ok (some []), fetches := fun _ => none }

/-- Listing entry for job `"g"` carrying only an error field `"X"`. -/
def failedEntry : NodeEntry :=
  { nodeId := "g", data := some { output := none, error := some "X", seed := none } }

/-- Polling environment where every listing reports job `"g"` failed. -/
def envFailed : PollEnv :=
  { listings := fun _ => .ok (some [failedEntry]), fetches := fun _ => none }

/-- Listing entry for job `"g"` carrying both an output and an error
field. -/
def bothEntry : NodeEntry :=
  { nodeId := "g", data := some { output := some "img", error := some "X", seed := some 7 } }

/-- Polling environment where every listing shows `bothEntry` and fetches
succeed. -/
def envBoth : PollEnv :=
  { listings := fun _ => .ok (some [bothEntry])
    fetches := fun _ => some ("QQ==", some "image/webp") }

/-- Listing entry for job `"g"` completed with an echoed seed of `0`. -/
def zeroSeedEntry : NodeEntry :=
  { nodeId := "g", data := some { output := some "img", error := none, seed := some 0 } }

/-- Polling environment where every listing shows `zeroSeedEntry` and
fetches succeed. -/
def envSeedZero : PollEnv :=
  { listings := fun _ => .ok (some [zeroSeedEntry])
    fetches := fun _ => some ("QQ==", some "image/webp") }

/-- Job environments whose submissions return job id `"g"` and whose polls
succeed via `envOkPoll`. -/
def jobEnvsOk : Nat → JobEnv := fun _ =>
  { jitterDraw := 0, randDraw := 5, enhResp := .failure
    submit := .createNode "g", poll := envOkPoll }

/-- A batch-of-2 request with enhancement disabled. -/
def optsC1 : GenerateImageOptions :=
  { prompt := "p", batchSize := some 2, enhancePrompt := some false }

/-- A batch-of-2 request with enhancement enabled (by default). -/
def optsC4 : GenerateImageOptions := { prompt := "p", batchSize := some 2 }

/-- An enhancement response whose success entry contains an empty variant
string. -/
def benhC4 : EnhanceResp :=
  .entries [{ status := "success", expanded_prompts := some ["", "V"] }]

/-- An enhancement response with two non-empty variants. -/
def benhC4w : EnhanceResp :=
  .entries [{ status := "success", expanded_prompts := some ["A", "B2"] }]

/-- A default job environment (used where the pipeline is never reached). -/
def jobEnvTrivial : Nat → JobEnv := fun _ =>
  { jitterDraw := 0, randDraw := 0, enhResp := .failure
    submit := .other, poll := envSilent }

/-- Job environments whose submissions succeed but whose listings never
contain the job, so every poll times out. -/
def jobEnvsSilent : Nat → JobEnv := fun _ =>
  { jitterDraw := 0, randDraw := 5, enhResp := .failure
    submit := .createNode "g", poll := envSilent }

/- ------------------------------------------------------------------ -/
/- Helper lemmas                                                       -/
/- ------------------------------------------------------------------ -/

theorem validateImageOptions_ok_iff (w h b : Option Int) :
    validateImageOptions w h b = .ok () ↔
      dimInvalid w = false ∧ dimInvalid h = false ∧ batchInvalid b = false := by
  unfold validateImageOptions
  by_cases hw : dimInvalid w <;> by_cases hh : dimInvalid h <;>
    by_cases hb : batchInvalid b <;> simp [hw, hh, hb]

theorem validateImageOptions_error_type (w h b : Option Int) (e : ReveAIError)
    (he : validateImageOptions w h b = .error e) :
    e.errType = .GENERATION_ERROR := by
  unfold validateImageOptions at he
  by_cases hw : dimInvalid w <;> by_cases hh : dimInvalid h <;>
    by_cases hb : batchInvalid b <;> simp [hw, hh, hb] at he <;>
    rw [← he]

theorem validateImageOptions_ok_single (w h b : Option Int)
    (hv : validateImageOptions w h b = .ok ()) :
    validateImageOptions w h (some 1) = .ok () := by
  rw [validateImageOptions_ok_iff] at hv ⊢
  exact ⟨hv.1, hv.2.1, by decide⟩

theorem batch_resolved_pos (b : Option Int) (h : batchInvalid b = false) :
    1 ≤ (numDefault b 1).toNat := by
  cases b with
  | none => simp [numDefault]
  | some n =>
    simp [batchInvalid] at h
    simp [numDefault]
    split <;> omega

theorem collect_error (l : List (Except ReveAIError SingleResult))
    (e : ReveAIError) (h : collect l = .error e) :
    ∃ j : Nat, l[j]? = some (Except.error e) := by
  induction l with
  | nil => simp [collect] at h
  | cons x xs ih =>
    match x with
    | .error e2 =>
      have he : e2 = e := by simpa [collect] using h
      exact ⟨0, by simp [he]⟩
    | .ok a =>
      rw [collect] at h
      cases hc : collect xs with
      | error e2 =>
        rw [hc] at h
        simp at h
        obtain ⟨j, hj⟩ := ih (by rw [hc, h])
        exact ⟨j + 1, by simpa using hj⟩
      | ok rest => rw [hc] at h; simp at h

theorem collect_ok (l : List (Except ReveAIError SingleResult))
    (res : List SingleResult) (h : collect l = .ok res) :
    res.length = l.length ∧ ∀ j : Nat, l[j]? = (res[j]?).map Except.ok := by
  induction l generalizing res with
  | nil =>
    simp [collect] at h
    subst h
    simp
  | cons x xs ih =>
    match x with
    | .error e2 => simp [collect] at h
    | .ok a =>
      rw [collect] at h
      cases hc : collect xs with
      | error e2 => rw [hc] at h; simp at h
      | ok rest =>
        rw [hc] at h
        simp at h
        obtain ⟨hlen, hget⟩ := ih rest hc
        subst h
        refine ⟨by simp [hlen], fun j => ?_⟩
        cases j with
        | zero => simp
        | succ j2 => simpa using hget j2

theorem range_map_getElem (b j : Nat) {α : Type} (g : Nat → α) :
    ((List.range b).map g)[j]? = if j < b then some (g j) else none := by
  by_cases h : j < b
  · simp [List.getElem?_map, List.getElem?_range h, h]
  · have : (List.range b)[j]? = none := by
      simp [List.getElem?_eq_none_iff]
      omega
    simp [List.getElem?_map, this, h]

theorem pollAux_polls_le (genId : String) (env : PollEnv) :
    ∀ r a : Nat, (pollAux genId env a r).polls ≤ r := by
  intro r
  induction r with
  | zero => intro a; simp [pollAux]
  | succ n ih =>
    intro a
    rw [pollAux]
    cases hl : env.listings a with
    | error e => simp
    | ok ol =>
      cases ol with
      | none =>
        have := ih (a + 1)
        simp only []
        omega
      | some l =>
        cases hf : l.find? (fun e => e.nodeId == genId) with
        | none =>
          have := ih (a + 1)
          simp only [hf]
          omega
        | some entry =>
          cases hd : entry.data with
          | none =>
            have := ih (a + 1)
            simp only [hf, hd]
            omega
          | some d =>
            have := ih (a + 1)
            by_cases ho : truthyStr d.output
            · cases hfe : env.fetches a with
              | none => simp [hf, hd, ho, hfe] <;> omega
              | some pr => simp [hf, hd, ho, hfe]
            · by_cases he : truthyStr d.error
              · simp [hf, hd, ho, he]
              · simp [hf, hd, ho, he] <;> omega

theorem pollAux_silent (genId : String) (env : PollEnv) :
    ∀ r a : Nat, (∀ n, a ≤ n → n < a + r → listingSilent genId (env.listings n) = true) →
      pollAux genId env a r =
        { result := .error { message := "Generation timed out after "
                               ++ toString (a + r) ++ " polling attempts"
                             errType := .POLLING_ERROR }
          polls := r
          delays := r } := by
  intro r
  induction r with
  | zero => intro a _; simp [pollAux]
  | succ n ih =>
    intro a h
    have h0 : listingSilent genId (env.listings a) = true := h a le_rfl (by omega)
    have hrec := ih (a + 1) (fun m hm1 hm2 => h m (by omega) (by omega))
    have harith : a + (n + 1) = (a + 1) + n := by omega
    rw [pollAux]
    cases hl : env.listings a with
    | error e => rw [hl] at h0; simp [listingSilent] at h0
    | ok ol =>
      cases ol with
      | none => simp [hrec, harith]
      | some l =>
        have hf : l.find? (fun e => e.nodeId == genId) = none := by
          rw [hl] at h0
          simpa [listingSilent] using h0
        simp [hf, hrec, harith]

theorem collect_head_error (l : List (Except ReveAIError SingleResult))
    (e : ReveAIError) (h : l[0]? = some (Except.error e)) : collect l = .error e := by
  cases l with
  | nil => simp at h
  | cons x xs =>
    simp at h
    subst h
    rfl

theorem generateImage_first_job_error (maxA : Nat) (options : GenerateImageOptions)
    (benh : EnhanceResp) (jenvs : Nat → JobEnv) (e : ReveAIError)
    (hvalid : validateImageOptions options.width options.height options.batchSize = .ok ())
    (h0 : (jobRun maxA options benh jenvs 0).result = .error e) :
    (generateImage maxA options benh jenvs).result = .error e := by
  have hb : 1 ≤ (numDefault options.batchSize 1).toNat :=
    batch_resolved_pos _ ((validateImageOptions_ok_iff _ _ _).mp hvalid).2.2
  have hfirst : ((batchJobs maxA options benh jenvs).map (fun r => r.result))[0]? =
      some (Except.error e) := by
    rw [batchJobs, List.map_map, range_map_getElem, if_pos (Nat.lt_of_lt_of_le Nat.zero_lt_one hb)]
    simp [h0]
  have hc := collect_head_error _ _ hfirst
  simp [generateImage, hvalid, generateImageBody, hc]

theorem payloads_getElem (maxA : Nat) (options : GenerateImageOptions)
    (benh : EnhanceResp) (jenvs : Nat → JobEnv) (i : Nat)
    (hi : i < (numDefault options.batchSize 1).toNat) :
    ((batchJobs maxA options benh jenvs).map (fun r => r.payload))[i]? =
      some ((jobRun maxA options benh jenvs i).payload) := by
  simp [batchJobs, List.map_map, range_map_getElem, hi]

theorem jobRun_assigned (maxA : Nat) (options : GenerateImageOptions)
    (benh : EnhanceResp) (jenvs : Nat → JobEnv) (i : Nat)
    (hvalid : validateImageOptions options.width options.height options.batchSize = .ok ())
    (henh : options.enhancePrompt.getD true = true)
    (hB : 1 < numDefault options.batchSize 1)
    (hne : enhancePrompt options.prompt benh ≠ [])
    (hall : ∀ v ∈ enhancePrompt options.prompt benh, v ≠ "") :
    (jobRun maxA options benh jenvs i).enhanceRequests = [] ∧
      ∃ p, (jobRun maxA options benh jenvs i).payload = some p ∧
        p.caption = (enhancePrompt options.prompt benh).getD
          (i % (enhancePrompt options.prompt benh).length) options.prompt := by
  have hlen : 0 < (enhancePrompt options.prompt benh).length :=
    List.length_pos.mpr hne
  have hidx : i % (enhancePrompt options.prompt benh).length
      < (enhancePrompt options.prompt benh).length := Nat.mod_lt _ hlen
  have hvmem : (enhancePrompt options.prompt benh).getD
      (i % (enhancePrompt options.prompt benh).length) options.prompt
      ∈ enhancePrompt options.prompt benh := by
    rw [List.getD_eq_getElem _ _ hidx]
    exact List.getElem_mem hidx
  have hvne : (enhancePrompt options.prompt benh).getD
      (i % (enhancePrompt options.prompt benh).length) options.prompt ≠ "" :=
    hall _ hvmem
  have hassigned : assignedVariant options benh i =
      some ((enhancePrompt options.prompt benh).getD
        (i % (enhancePrompt options.prompt benh).length) options.prompt) := by
    simp [assignedVariant, henh, hB, hlen]
  have hv1 : validateImageOptions options.width options.height (some 1) = .ok () :=
    validateImageOptions_ok_single _ _ _ hvalid
  have htruthy : truthyStr (assignedVariant options benh i) = true := by
    rw [hassigned]
    simpa [truthyStr] using hvne
  unfold jobRun generateSingleImage
  simp only []
  rw [hv1]
  simp only [htruthy, henh, Bool.and_self, if_true]
  cases hsub : parseSubmitResp (jenvs i).submit with
  | none =>
    dsimp only
    exact ⟨rfl, _, rfl, by simp [hassigned]⟩
  | some gid =>
    dsimp only
    cases hpoll : (pollGenerationStatus maxA gid (jenvs i).poll).result with
    | error e =>
      dsimp only
      exact ⟨rfl, _, rfl, by simp [hassigned]⟩
    | ok pr =>
      dsimp only
      exact ⟨rfl, _, rfl, by simp [hassigned]⟩

/- ------------------------------------------------------------------ -/
/- Claim theorems                                                      -/
/- ------------------------------------------------------------------ -/

/-- C1: for every valid request, `generateImage` either rejects with the
error of one of its `batchSize` job pipelines (no partial `BatchResult`),
or resolves with a `BatchResult` whose `imageUrls` has exactly `batchSize`
entries, the entry at index `j` being the image of job `j` (dispatch
order). -/
theorem C1_batch_all_or_nothing (maxA : Nat) (options : GenerateImageOptions)
    (benh : EnhanceResp) (jenvs : Nat → JobEnv)
    (hvalid : validateImageOptions options.width options.height options.batchSize = .ok ()) :
    (∃ e, (generateImage maxA options benh jenvs).result = .error e ∧
       ∃ j : Nat, j < (numDefault options.batchSize 1).toNat ∧
         (jobRun maxA options benh jenvs j).result = .error e) ∨
    (∃ res, (generateImage maxA options benh jenvs).result = .ok res ∧
       res.imageUrls.length = (numDefault options.batchSize 1).toNat ∧
       ∀ j : Nat, j < (numDefault options.batchSize 1).toNat →
         ∃ s, (jobRun maxA options benh jenvs j).result = .ok s ∧
           res.imageUrls[j]? = some s.imageUrl) := by
  simp only [generateImage, hvalid]
  cases hc : collect ((batchJobs maxA options benh jenvs).map (fun r => r.result)) with
  | error e =>
    left
    obtain ⟨j, hj⟩ := collect_error _ _ hc
    rw [batchJobs, List.map_map, range_map_getElem] at hj
    have hjb : j < (numDefault options.batchSize 1).toNat := by
      by_contra hge
      simp [hge] at hj
    rw [if_pos hjb] at hj
    simp at hj
    exact ⟨e, by simp [generateImageBody, hc], j, hjb, hj⟩
  | ok results =>
    right
    obtain ⟨hlen, hget⟩ := collect_ok _ _ hc
    refine ⟨{ imageUrls := results.map (fun r => r.imageUrl)
              seed := headSeed results
              prompt := options.prompt
              enhancedPrompt :=
                if options.enhancePrompt.getD true
                    && 0 < (results.filterMap (fun r => r.enhancedPrompt)).length then
                  some ((results.filterMap (fun r => r.enhancedPrompt)).headD "")
                else none
              enhancedPrompts :=
                if options.enhancePrompt.getD true
                    && 0 < (results.filterMap (fun r => r.enhancedPrompt)).length
                    && 1 < (results.filterMap (fun r => r.enhancedPrompt)).length then
                  some (results.filterMap (fun r => r.enhancedPrompt))
                else none
              negativePrompt :=
                if strDefault options.negativePrompt "" = "" then none
                else some (strDefault options.negativePrompt "") },
      ?_, ?_, ?_⟩
    · simp only [generateImageBody, hc]
    · simpa [batchJobs] using hlen
    · intro j hjb
      have hj := hget j
      rw [batchJobs, List.map_map, range_map_getElem, if_pos hjb] at hj
      cases hq : results[j]? with
      | none => rw [hq] at hj; simp at hj
      | some s =>
        rw [hq] at hj
        simp at hj
        exact ⟨s, hj, by simp [List.getElem?_map, hq]⟩

/-- C1, witness: a valid batch of 2 where both jobs succeed. -/
theorem C1_batch_all_or_nothing_witness :
    validateImageOptions optsC1.width optsC1.height optsC1.batchSize = .ok () ∧
    ((∃ e, (generateImage 3 optsC1 .failure jobEnvsOk).result = .error e ∧
        ∃ j : Nat, j < (numDefault optsC1.batchSize 1).toNat ∧
          (jobRun 3 optsC1 .failure jobEnvsOk j).result = .error e) ∨
     (∃ res, (generateImage 3 optsC1 .failure jobEnvsOk).result = .ok res ∧
        res.imageUrls.length = (numDefault optsC1.batchSize 1).toNat ∧
        ∀ j : Nat, j < (numDefault optsC1.batchSize 1).toNat →
          ∃ s, (jobRun 3 optsC1 .failure jobEnvsOk j).result = .ok s ∧
            res.imageUrls[j]? = some s.imageUrl)) :=
  ⟨rfl, C1_batch_all_or_nothing 3 optsC1 .failure jobEnvsOk rfl⟩

/-- C4, counterexample: with batch size 2 and enhancement enabled, an
enhancer response whose first variant is the empty string leads to **two**
enhancement calls (the batch-level one requesting 2 variants, plus an
inline per-job one requesting 1, because the empty variant is falsy), and
job 0's submitted caption is the original prompt `"p"`, not variant
`0 mod 2` (which is `""`). -/
theorem C4_empty_variant_counterexample :
    (generateImage 3 optsC4 benhC4 jobEnvsOk).enhanceRequests = [2, 1] ∧
      (generateImage 3 optsC4 benhC4 jobEnvsOk).payloads.map
          (fun p => p.map (fun q => q.caption)) = [some "p", some "V"] ∧
      enhancePrompt optsC4.prompt benhC4 = ["", "V"] := by
  refine ⟨rfl, rfl, rfl⟩

/-- C4, amended: with a valid request, batch size `B > 1`, enhancement
enabled, and the enhancer returning a non-empty list of **non-empty**
variants, exactly one enhancement call is made, with
`num_variants = B`, and job `i`'s submitted caption is variant
`i mod returnedVariantCount` (an empty returned variant would instead be
falsy and trigger an extra per-job enhancement call). -/
theorem C4_batch_enhancement (maxA : Nat) (options : GenerateImageOptions)
    (benh : EnhanceResp) (jenvs : Nat → JobEnv)
    (hvalid : validateImageOptions options.width options.height options.batchSize = .ok ())
    (henh : options.enhancePrompt.getD true = true)
    (hB : 1 < numDefault options.batchSize 1)
    (hne : enhancePrompt options.prompt benh ≠ [])
    (hall : ∀ v ∈ enhancePrompt options.prompt benh, v ≠ "") :
    (generateImage maxA options benh jenvs).enhanceRequests =
        [(numDefault options.batchSize 1).toNat] ∧
      ∀ i : Nat, i < (numDefault options.batchSize 1).toNat →
        ∃ p, (generateImage maxA options benh jenvs).payloads[i]? = some (some p) ∧
          p.caption = (enhancePrompt options.prompt benh).getD
            (i % (enhancePrompt options.prompt benh).length) options.prompt := by
  simp only [generateImage, hvalid]
  have hbatch : batchEnhanceRequests options = [(numDefault options.batchSize 1).toNat] := by
    simp [batchEnhanceRequests, henh, hB]
  have hflat : ((batchJobs maxA options benh jenvs).map
      (fun r => r.enhanceRequests)).flatten = [] := by
    rw [List.flatten_eq_nil_iff]
    intro xs hxs
    obtain ⟨run, hrun, rfl⟩ := List.mem_map.mp hxs
    rw [batchJobs] at hrun
    obtain ⟨i2, _, rfl⟩ := List.mem_map.mp hrun
    exact (jobRun_assigned maxA options benh jenvs i2 hvalid henh hB hne hall).1
  constructor
  · cases hc : collect ((batchJobs maxA options benh jenvs).map (fun r => r.result)) with
    | error e => simp [generateImageBody, hc, hbatch, hflat]
    | ok results => simp [generateImageBody, hc, hbatch, hflat]
  · intro i hi
    obtain ⟨_, p, hp, hcap⟩ :=
      jobRun_assigned maxA options benh jenvs i hvalid henh hB hne hall
    have hpi := payloads_getElem maxA options benh jenvs i hi
    refine ⟨p, ?_, hcap⟩
    cases hc : collect ((batchJobs maxA options benh jenvs).map (fun r => r.result)) with
    | error e => simp [generateImageBody, hc, hpi, hp]
    | ok results => simp [generateImageBody, hc, hpi, hp]

/-- C4, witness: batch of 2 with two non-empty returned variants. -/
theorem C4_batch_enhancement_witness :
    (generateImage 3 optsC4 benhC4w jobEnvsOk).enhanceRequests =
        [(numDefault optsC4.batchSize 1).toNat] ∧
      ∀ i : Nat, i < (numDefault optsC4.batchSize 1).toNat →
        ∃ p, (generateImage 3 optsC4 benhC4w jobEnvsOk).payloads[i]? = some (some p) ∧
          p.caption = (enhancePrompt optsC4.prompt benhC4w).getD
            (i % (enhancePrompt optsC4.prompt benhC4w).length) optsC4.prompt :=
  C4_batch_enhancement 3 optsC4 benhC4w jobEnvsOk rfl rfl (by decide) (by decide)
    (by decide)

/-- C2, counterexample: a supplied width of `0` is outside `[384, 1024]`,
yet `validateImageOptions` raises no validation error for it (JS truthiness
makes `0` skip the check entirely); the claim that every out-of-range
supplied width always raises is therefore false. -/
theorem C2_zero_width_counterexample :
    validateImageOptions (some 0) (some 512) (some 1) = .ok () ∧ (0 : Int) < 384 := by
  constructor
  · rfl
  · decide

/-- C2, amended: for every supplied **non-zero** width or height,
validation succeeds exactly when the value is a multiple of 8 in
`[384, 1024]` (a supplied `0` is falsy and never checked); every validation
error carries kind `GENERATION_ERROR`; and a failing validation makes
`generateImage` fail with that error before any payload is built or any
enhancement call is made. -/
theorem C2_validate_bounds :
    (∀ n : Int, n ≠ 0 →
      (dimInvalid (some n) = false ↔ 384 ≤ n ∧ n ≤ 1024 ∧ n % 8 = 0)) ∧
    (∀ w h b : Option Int,
      validateImageOptions w h b = .ok () ↔
        dimInvalid w = false ∧ dimInvalid h = false ∧ batchInvalid b = false) ∧
    (∀ w h b : Option Int, ∀ e : ReveAIError,
      validateImageOptions w h b = .error e → e.errType = .GENERATION_ERROR) ∧
    (∀ maxA : Nat, ∀ options : GenerateImageOptions, ∀ benh : EnhanceResp,
      ∀ jenvs : Nat → JobEnv, ∀ e : ReveAIError,
      validateImageOptions options.width options.height options.batchSize = .error e →
      generateImage maxA options benh jenvs =
        { payloads := [], enhanceRequests := [], result := .error e }) := by
  refine ⟨?_, validateImageOptions_ok_iff, validateImageOptions_error_type, ?_⟩
  · intro n hn
    simp [dimInvalid, hn]
    omega
  · intro maxA options benh jenvs e he
    simp [generateImage, he]

/-- C2, witness: a request with width 100 fails validation with a
`GENERATION_ERROR` and `generateImage` short-circuits: no payload, no
enhancement call. -/
theorem C2_validate_bounds_witness :
    generateImage 1 { prompt := "p", width := some 100 } .failure jobEnvTrivial =
      { payloads := [], enhanceRequests := []
        result := .error
          { message := "Width must be between 384 and 1024 and be divisible by 8"
            errType := .GENERATION_ERROR } } :=
  C2_validate_bounds.2.2.2 1 { prompt := "p", width := some 100 } .failure
    jobEnvTrivial _ rfl

/-- C3, counterexample: the value `2147483645` lies in the claimed range
`[0, 2^31 - 1)`, but no random draw can ever produce it as the submitted
seed of a job with unspecified base seed — the code draws from
`[0, 10^7)`, not `[0, 2^31 - 1)`, so the submitted seed is not uniform on
the claimed range. -/
theorem C3_random_seed_counterexample :
    ((0 : Int) ≤ 2147483645 ∧ (2147483645 : Int) < 2 ^ 31 - 1) ∧
      ¬ ∃ j d : Nat, j < 1000 ∧ d < 10000000 ∧
        submittedSeed none j d = 2147483645 := by
  refine ⟨by norm_num, ?_⟩
  rintro ⟨j, d, hj, hd, h⟩
  simp [submittedSeed, jobSeedArg, resolveSeed] at h
  omega

/-- C3, amended: when the base seed is omitted or is the sentinel `-1`, the
submitted seed always lies in `[0, 10^7)` (not `[0, 2^31 - 1)`): with an
omitted base it is the fresh draw itself, so every value of `[0, 10^7)` is
reachable; with a supplied `-1` the jitter is added first, so the job
submits `jitter - 1` unless the jitter is `0`, in which case a fresh draw
is submitted. -/
theorem C3_random_seed_range (base : Option Int)
    (hbase : base = none ∨ base = some (-1)) (j d : Nat)
    (hj : j < 1000) (hd : d < 10000000) :
    (0 ≤ submittedSeed base j d ∧ submittedSeed base j d < 10000000) ∧
      ∀ v : Nat, v < 10000000 →
        ∃ d2 : Nat, d2 < 10000000 ∧ submittedSeed none j d2 = v := by
  constructor
  · rcases hbase with h | h <;> subst h
    · simp [submittedSeed, jobSeedArg, resolveSeed]
      omega
    · simp only [submittedSeed, jobSeedArg, resolveSeed]
      by_cases hz : (-1 : Int) + j = -1
      · simp [hz]; omega
      · simp [hz]; omega
  · intro v hv
    refine ⟨v, hv, ?_⟩
    simp [submittedSeed, jobSeedArg, resolveSeed]

/-- C3, witness at base omitted, jitter 0, draw 123. -/
theorem C3_random_seed_range_witness :
    (0 ≤ submittedSeed none 0 123 ∧ submittedSeed none 0 123 < 10000000) ∧
      ∀ v : Nat, v < 10000000 →
        ∃ d2 : Nat, d2 < 10000000 ∧ submittedSeed none 0 d2 = v :=
  C3_random_seed_range none (Or.inl rfl) 0 123 (by decide) (by decide)

/-- C5, counterexample: a response whose last entry has status `"success"`
but an **empty** variant list is a failing interaction per the claim (no
success entry carrying a non-empty list), yet `enhancePrompt` returns the
empty sequence instead of the single-element original-prompt sequence. -/
theorem C5_empty_list_counterexample :
    enhancePrompt "p" (.entries [{ status := "success", expanded_prompts := some [] }]) = []
      ∧ ([] : List String) ≠ ["p"] := by
  constructor
  · rfl
  · decide

/-- C5, amended: `enhancePrompt` never raises; on every failing interaction
(thrown request, non-array body, empty list, last entry not a success or
without a variants array) it returns the single-element original-prompt
sequence — except that a success entry carrying an **empty** variants array
yields the empty sequence, and that is the only way to get an empty
result. -/
theorem C5_enhancer_fallback (prompt : String) (resp : EnhanceResp)
    (hfail : ∀ (l : List EnhanceEntry) (last : EnhanceEntry),
      resp = .entries l → l.getLast? = some last →
      ¬(last.status = "success" ∧ ∃ ps, last.expanded_prompts = some ps ∧ ps ≠ [])) :
    (enhancePrompt prompt resp = [prompt] ∨ enhancePrompt prompt resp = []) ∧
      (enhancePrompt prompt resp = [] ↔
        ∃ (l : List EnhanceEntry) (last : EnhanceEntry),
          resp = .entries l ∧ l.getLast? = some last ∧
            last.status = "success" ∧ last.expanded_prompts = some []) := by
  cases resp with
  | failure => simp [enhancePrompt]
  | nonList => simp [enhancePrompt]
  | entries l =>
    cases hlast : l.getLast? with
    | none => simp [enhancePrompt, hlast]
    | some last =>
      by_cases hs : last.status = "success"
      · cases hp : last.expanded_prompts with
        | none => simp [enhancePrompt, hlast, hs, hp]
        | some ps =>
          cases ps with
          | nil =>
            refine ⟨Or.inr ?_, ?_, fun _ => ?_⟩
            · simp [enhancePrompt, hlast, hs, hp]
            · intro _
              exact ⟨l, last, rfl, hlast, hs, hp⟩
            · simp [enhancePrompt, hlast, hs, hp]
          | cons a as =>
            exact absurd ⟨hs, a :: as, hp, by simp⟩ (hfail l last rfl hlast)
      · simp [enhancePrompt, hlast, hs]

/-- C5, witness at a thrown enhancement request. -/
theorem C5_enhancer_fallback_witness :
    (enhancePrompt "p" .failure = ["p"] ∨ enhancePrompt "p" .failure = []) ∧
      (enhancePrompt "p" .failure = [] ↔
        ∃ (l : List EnhanceEntry) (last : EnhanceEntry),
          EnhanceResp.failure = .entries l ∧ l.getLast? = some last ∧
            last.status = "success" ∧ last.expanded_prompts = some []) :=
  C5_enhancer_fallback "p" .failure (fun _ _ h => nomatch h)

/-- C10: a completed job's status entry whose echoed
`inference_inputs.seed` is missing or `0` (falsy) is reported with seed
`-1`: (i) directly at the `seed || -1` read, (ii) through a full polling
run reaching the completed entry, and (iii) a successful batch's
`BatchResult.seed` is always the first job's reported seed, so that `-1`
becomes `BatchResult.seed` when that job is the first in the batch. -/
theorem C10_falsy_seed :
    (∀ d : NodeData, d.seed = none ∨ d.seed = some 0 → reportedSeed d = -1) ∧
    (∀ (maxAttempts : Nat) (genId : String) (env : PollEnv) (l : List NodeEntry)
        (entry : NodeEntry) (d : NodeData) (b64 : String) (mime : Option String),
      0 < maxAttempts →
      env.listings 0 = .ok (some l) →
      l.find? (fun e => e.nodeId == genId) = some entry →
      entry.data = some d →
      truthyStr d.output = true →
      env.fetches 0 = some (b64, mime) →
      (d.seed = none ∨ d.seed = some 0) →
      pollGenerationStatus maxAttempts genId env =
        { result := .ok { imageUrls := [dataUrl mime b64], seed := -1 }
          polls := 1, delays := 0 }) ∧
    (∀ (maxAttempts : Nat) (options : GenerateImageOptions) (benh : EnhanceResp)
        (jenvs : Nat → JobEnv) (res : GenerateImageResult),
      (generateImage maxAttempts options benh jenvs).result = .ok res →
      ∃ s0, (jobRun maxAttempts options benh jenvs 0).result = .ok s0 ∧
        res.seed = s0.seed) := by
  refine ⟨?_, ?_, ?_⟩
  · intro d hd
    rcases hd with h | h <;> simp [reportedSeed, h]
  · intro maxA genId env l entry d b64 mime hmax hl hfind hdata hout hfetch hseed
    obtain ⟨r, rfl⟩ : ∃ r, maxA = r + 1 := ⟨maxA - 1, by omega⟩
    have hrep : reportedSeed d = -1 := by
      rcases hseed with h | h <;> simp [reportedSeed, h]
    unfold pollGenerationStatus
    rw [pollAux, hl]
    simp [hfind, hdata, hout, hfetch, hrep]
  · intro maxA options benh jenvs res hres
    unfold generateImage at hres
    cases hv : validateImageOptions options.width options.height options.batchSize with
    | error e => rw [hv] at hres; simp at hres
    | ok u =>
      cases u
      rw [hv] at hres
      unfold generateImageBody at hres
      cases hc : collect ((batchJobs maxA options benh jenvs).map (fun r => r.result)) with
      | error e => rw [hc] at hres; simp at hres
      | ok results =>
        rw [hc] at hres
        simp at hres
        have hlen := (collect_ok _ _ hc).1
        have hget := (collect_ok _ _ hc).2 0
        have hb : 1 ≤ (numDefault options.batchSize 1).toNat :=
          batch_resolved_pos _ ((validateImageOptions_ok_iff _ _ _).mp hv).2.2
        cases results with
        | nil =>
          exfalso
          simp [batchJobs] at hlen
          omega
        | cons r0 rest =>
          have h0b : 0 < (numDefault options.batchSize 1).toNat := hb
          have h0 : ((batchJobs maxA options benh jenvs).map (fun r => r.result))[0]? =
              some ((jobRun maxA options benh jenvs 0).result) := by
            simp [batchJobs, List.map_map, range_map_getElem, h0b]
          rw [h0] at hget
          simp at hget
          refine ⟨r0, hget, ?_⟩
          rw [← hres]
          simp [headSeed]

/-- C10, witness: a job completing on the first poll with echoed seed `0`
is reported with seed `-1`. -/
theorem C10_falsy_seed_witness :
    pollGenerationStatus 3 "g" envSeedZero =
      { result := .ok { imageUrls := ["data:image/webp;base64,QQ=="], seed := -1 }
        polls := 1, delays := 0 } :=
  C10_falsy_seed.2.1 3 "g" envSeedZero [zeroSeedEntry] zeroSeedEntry
    { output := some "img", error := none, seed := some 0 } "QQ==" (some "image/webp")
    (by decide) rfl rfl rfl rfl rfl (Or.inr rfl)

/-- C9, counterexample: with base seed `S = -2` (not the sentinel) and
jitter `1`, the per-job seed option becomes `-1` and collides with the
sentinel, so the submitted seed is a fresh random draw (here `5`), not
`S + jitter = -1`. -/
theorem C9_sentinel_collision_counterexample :
    submittedSeed (some (-2)) 1 5 = 5 ∧ ((-2 : Int) + 1 : Int) ≠ 5 := by
  constructor
  · rfl
  · decide

/-- C9, amended: with a specified base seed `S`, jitter in `[0, 1000)` and
draw in `[0, 10^7)`, the submitted seed is always `≥ S`; it equals
`S + jitter` unless `S + jitter = -1` (possible only for
`S ∈ [-1000, -1]`), in which case the sentinel collision makes it a fresh
draw. -/
theorem C9_seed_jitter (S : Int) (hS : S ≠ -1) (j d : Nat)
    (hj : j < 1000) (hd : d < 10000000) :
    S ≤ submittedSeed (some S) j d ∧
      (S + j ≠ -1 → submittedSeed (some S) j d = S + j) ∧
      (S + j = -1 → submittedSeed (some S) j d = d) := by
  simp only [submittedSeed, jobSeedArg, resolveSeed]
  by_cases h : S + (j : Int) = -1 <;> simp [h] <;> omega

/-- C6, counterexample: a listing entry for the submitted job that carries
both `data.error = "X"` and a `data.output` is treated as **succeeded**
(the output check comes first), so polling does not terminate with a
generation error containing `"X"` — it fetches the asset and resolves. -/
theorem C6_output_precedence_counterexample :
    pollGenerationStatus 3 "g" envBoth =
      { result := .ok { imageUrls := ["data:image/webp;base64,QQ=="], seed := 7 }
        polls := 1, delays := 0 } ∧
      (pollGenerationStatus 3 "g" envBoth).result.isOk = true := by
  constructor
  · rfl
  · rfl

/-- C6, amended: when the listing of the first poll iteration contains the
submitted job id with a **non-empty** `data.error` and **without** a truthy
`data.output` (output takes precedence over error), polling terminates
immediately — one poll, no delay, no retry — and the poller rejects with a
`GENERATION_ERROR` whose message contains the service-reported message;
moreover any first-job pipeline error (such as this one) rejects the whole
`generateImage` call with that same error. -/
theorem C6_error_terminates (maxAttempts : Nat) (genId : String) (env : PollEnv)
    (l : List NodeEntry) (entry : NodeEntry) (d : NodeData) (msg : String)
    (hmax : 0 < maxAttempts)
    (hl : env.listings 0 = .ok (some l))
    (hfind : l.find? (fun e => e.nodeId == genId) = some entry)
    (hdata : entry.data = some d)
    (hout : truthyStr d.output = false)
    (herr : d.error = some msg) (hne : msg ≠ "") :
    pollGenerationStatus maxAttempts genId env =
      { result := .error { message := "Generation failed: " ++ msg
                           errType := .GENERATION_ERROR }
        polls := 1, delays := 0 } ∧
    (∀ (maxA2 : Nat) (options : GenerateImageOptions) (benh : EnhanceResp)
        (jenvs : Nat → JobEnv) (e : ReveAIError),
      validateImageOptions options.width options.height options.batchSize = .ok () →
      (jobRun maxA2 options benh jenvs 0).result = .error e →
      (generateImage maxA2 options benh jenvs).result = .error e) := by
  constructor
  · obtain ⟨r, rfl⟩ : ∃ r, maxAttempts = r + 1 := ⟨maxAttempts - 1, by omega⟩
    have htruthy : truthyStr (some msg) = true := by
      simpa [truthyStr] using hne
    unfold pollGenerationStatus
    rw [pollAux, hl]
    simp [hfind, hdata, hout, herr, htruthy]
  · intro maxA2 options benh jenvs e hv h0
    exact generateImage_first_job_error maxA2 options benh jenvs e hv h0

/-- C6, witness: a run whose first listing reports job `"g"` failed with
message `"X"`. -/
theorem C6_error_terminates_witness :
    (pollGenerationStatus 5 "g" envFailed =
      { result := .error { message := "Generation failed: X"
                           errType := .GENERATION_ERROR }
        polls := 1, delays := 0 } ∧
    (∀ (maxA2 : Nat) (options : GenerateImageOptions) (benh : EnhanceResp)
        (jenvs : Nat → JobEnv) (e : ReveAIError),
      validateImageOptions options.width options.height options.batchSize = .ok () →
      (jobRun maxA2 options benh jenvs 0).result = .error e →
      (generateImage maxA2 options benh jenvs).result = .error e)) :=
  C6_error_terminates 5 "g" envFailed [failedEntry] failedEntry
    { output := none, error := some "X", seed := none } "X"
    (by decide) rfl rfl rfl rfl rfl (by decide)

/-- C7: when no listing consulted before the attempt budget runs out
contains the submitted job id (and no listing request fails), the poller
runs exactly `maxPollingAttempts` poll iterations and then rejects with a
`POLLING_ERROR` whose message names that number of attempts; moreover any
first-job pipeline error (such as this timeout) rejects the whole
`generateImage` call with that same error. -/
theorem C7_polling_timeout (maxAttempts : Nat) (genId : String) (env : PollEnv)
    (h : ∀ n, n < maxAttempts → listingSilent genId (env.listings n) = true) :
    pollGenerationStatus maxAttempts genId env =
      { result := .error { message := "Generation timed out after "
                             ++ toString maxAttempts ++ " polling attempts"
                           errType := .POLLING_ERROR }
        polls := maxAttempts
        delays := maxAttempts } ∧
    (∀ (maxA2 : Nat) (options : GenerateImageOptions) (benh : EnhanceResp)
        (jenvs : Nat → JobEnv) (e : ReveAIError),
      validateImageOptions options.width options.height options.batchSize = .ok () →
      (jobRun maxA2 options benh jenvs 0).result = .error e →
      (generateImage maxA2 options benh jenvs).result = .error e) := by
  constructor
  · have := pollAux_silent genId env maxAttempts 0 (fun n _ hn => h n (by omega))
    simpa [pollGenerationStatus] using this
  · intro maxA2 options benh jenvs e hv h0
    exact generateImage_first_job_error maxA2 options benh jenvs e hv h0

/-- C7, witness: two attempts against listings that never contain the job,
plus a full `generateImage` run with silent listings rejecting with the
timeout error of its first job (3 attempts). -/
theorem C7_polling_timeout_witness :
    pollGenerationStatus 2 "g" envSilent =
      { result := .error { message := "Generation timed out after 2 polling attempts"
                           errType := .POLLING_ERROR }
        polls := 2
        delays := 2 } ∧
    (generateImage 3 optsC1 .failure jobEnvsSilent).result =
      .error { message := "Generation timed out after 3 polling attempts"
               errType := .POLLING_ERROR } :=
  ⟨(C7_polling_timeout 2 "g" envSilent (by decide)).1,
   (C7_polling_timeout 2 "g" envSilent (by decide)).2 3 optsC1 .failure jobEnvsSilent
     _ rfl rfl⟩

/-- C8: when a poll iteration finds the job's entry with an output
identifier but the asset fetch fails, the poller does not terminate on that
failure: the iteration's outcome is exactly the outcome of the continued
loop, it waits one polling interval (one more delay), consumes exactly one
attempt (one more poll), and the loop stays bounded by the attempt budget
(`polls ≤ remaining` for every start state). -/
theorem C8_fetch_retry (genId : String) (env : PollEnv) (a r : Nat)
    (l : List NodeEntry) (entry : NodeEntry) (d : NodeData)
    (hl : env.listings a = .ok (some l))
    (hfind : l.find? (fun e => e.nodeId == genId) = some entry)
    (hdata : entry.data = some d)
    (hout : truthyStr d.output = true)
    (hfetch : env.fetches a = none) :
    (pollAux genId env a (r + 1)).result = (pollAux genId env (a + 1) r).result ∧
      (pollAux genId env a (r + 1)).polls = (pollAux genId env (a + 1) r).polls + 1 ∧
      (pollAux genId env a (r + 1)).delays = (pollAux genId env (a + 1) r).delays + 1 ∧
      ∀ a2 r2 : Nat, (pollAux genId env a2 r2).polls ≤ r2 := by
  refine ⟨?_, ?_, ?_, fun a2 r2 => pollAux_polls_le genId env r2 a2⟩ <;>
    · rw [pollAux, hl]
      simp [hfind, hdata, hout, hfetch]

/-- C8, witness: one fetch-failing iteration with one remaining retry. -/
theorem C8_fetch_retry_witness :
    (pollAux "g" envFetchFail 0 1).result = (pollAux "g" envFetchFail 1 0).result ∧
      (pollAux "g" envFetchFail 0 1).polls = (pollAux "g" envFetchFail 1 0).polls + 1 ∧
      (pollAux "g" envFetchFail 0 1).delays = (pollAux "g" envFetchFail 1 0).delays + 1 ∧
      ∀ a2 r2 : Nat, (pollAux "g" envFetchFail a2 r2).polls ≤ r2 :=
  C8_fetch_retry "g" envFetchFail 0 0 [outEntry] outEntry outData rfl rfl rfl rfl rfl

/-- C9, witness at base 42, jitter 7, draw 3. -/
theorem C9_seed_jitter_witness :
    (42 : Int) ≤ submittedSeed (some 42) 7 3 ∧
      ((42 : Int) + (7 : Nat) ≠ -1 → submittedSeed (some 42) 7 3 = 42 + (7 : Nat)) ∧
      ((42 : Int) + (7 : Nat) = -1 → submittedSeed (some 42) 7 3 = 3) :=
  C9_seed_jitter 42 (by decide) 7 3 (by decide) (by decide)

end ReveSDK
